import Mathlib

/-!
Verification development for the SP browser client (frontend/src).

The definitions below are a shallow embedding of the core components:
ResultNormalizer (ResultsTable in Dashboard.js), JobPollingScheduler
(pollJobStatus in Dashboard.js), JobSubmissionController (handleSubmit in
ScrapingForm.js together with handleScrape in Dashboard.js), and
ExportDispatcher (handleExport / button disabling in ExportButtons.js).
Scalars extracted from pages are modelled as strings; JS objects used as
ordered string-keyed maps are modelled as association lists in first-insertion
order, which is the order Object.entries / Object.keys observes.
-/

namespace SP

/-! ### Result data model -/

/-- A field value in `result_data`: either a single scalar or an ordered
sequence of scalars (both strings, as produced by the extraction engine). -/
inductive Value where
  | str (s : String)
  | seq (elems : List String)
deriving DecidableEq, Repr

/-- `result_data`: an ordered mapping from field name to value. -/
abbrev ResultData := List (String × Value)

/-- The reserved metadata key excluded from tabular rendering
(`const { _metadata, ...scrapedData } = data`). -/
def metadataKey : String := "_metadata"

/-- Drops the metadata entry, keeping the remaining fields in order
(the rest-spread `...scrapedData` in ResultsTable). -/
def stripMetadata (data : ResultData) : ResultData :=
  data.filter (fun kv => kv.1 ≠ metadataKey)

/-- Width contributed by one value:
`Array.isArray(values) ? values.length : 1`. -/
def valueWidth : Value → Nat
  | .str _ => 1
  | .seq xs => xs.length

/-- `maxLength = Math.max(...Object.values(scrapedData).map(...))`.
JS `Math.max()` of no arguments is `-Infinity`, under which the row loop
does not run; folding with base 0 produces the same empty row list, and on a
non-empty list of naturals the fold equals the JS maximum. -/
def maxLength (scraped : ResultData) : Nat :=
  (scraped.map (fun kv => valueWidth kv.2)).foldr Nat.max 0

/-- JS `x || ''` applied to an optional array element `values[i]`:
a missing element or an empty string (falsy) yields the empty string. -/
def orEmpty : Option String → String
  | some s => if s = "" then "" else s
  | none => ""

/-- The cell value for one field at row index `i`:
`Array.isArray(values) ? (values[i] || '') : (i === 0 ? values : '')`. -/
def rowValue (v : Value) (i : Nat) : String :=
  match v with
  | .seq xs => orEmpty xs[i]?
  | .str s => if i = 0 then s else ""

/-- The row built at index `i`: one entry per field of `scrapedData`,
in the field order of the input (`Object.entries(scrapedData).forEach`). -/
def rowAt (scraped : ResultData) (i : Nat) : List (String × String) :=
  scraped.map (fun kv => (kv.1, rowValue kv.2 i))

/-- The `tableData` memo of ResultsTable: rows for `i = 0 .. maxLength-1`
over the non-metadata fields. -/
def tableData (data : ResultData) : List (List (String × String)) :=
  (List.range (maxLength (stripMetadata data))).map (rowAt (stripMetadata data))

/-- What ResultsTable renders: the two empty-state messages are distinct
outcomes, a non-empty table is rendered as rows. -/
inductive RenderOutcome where
  | noDataAvailable
  | noDataFound
  | table (rows : List (List (String × String)))
deriving DecidableEq, Repr

/-- The render decision of ResultsTable: `!data || Object.keys(data).length
=== 0` shows "No data available"; otherwise `tableData.length === 0` shows
"No data found with the specified selectors"; otherwise the table. -/
def renderResults : Option ResultData → RenderOutcome
  | none => .noDataAvailable
  | some d =>
    if d.length = 0 then .noDataAvailable
    else if (tableData d).length = 0 then .noDataFound
    else .table (tableData d)

/-- Modelled from the spec: the row-value description of §4.3 step 3 —
for a sequence, the element at index `i` if present, else the empty string;
for a scalar, that scalar when `i = 0`, else the empty string. Stated
separately from `rowValue` (which is translated from the source) so the two
can be compared. -/
def specRowValue (v : Value) (i : Nat) : String :=
  match v with
  | .seq xs =>
    match xs[i]? with
    | some x => x
    | none => ""
  | .str s => if i = 0 then s else ""

/-! ### Job submission (ScrapingForm.handleSubmit, Dashboard.handleScrape) -/

/-- One row of the selector editor: `{field, selector}`. -/
structure SelectorPair where
  field : String
  selector : String
deriving DecidableEq, Repr

/-- The form state relevant to submission. -/
structure FormData where
  url : String
  use_selenium : Bool
  selectors : List SelectorPair
deriving DecidableEq, Repr

/-- The three local validation failures of handleSubmit, in check order. -/
inductive ValidationError where
  | MissingUrl
  | NoSelectors
  | NoValidSelectors
deriving DecidableEq, Repr

/-- Assignment `obj[k] = v` on a JS object viewed as an ordered map:
an existing key keeps its position and gets the new value
(last-write-wins), a new key is appended. -/
def objInsert (obj : List (String × String)) (k v : String) :
    List (String × String) :=
  if obj.any (fun kv => kv.1 == k) then
    obj.map (fun kv => if kv.1 == k then (k, v) else kv)
  else obj ++ [(k, v)]

/-- One iteration of the selectorsObj forEach loop: a pair whose field and
selector are both truthy (non-empty strings) is assigned, others are
skipped (`if (sel.field && sel.selector)`). -/
def selStep (obj : List (String × String)) (sel : SelectorPair) :
    List (String × String) :=
  if sel.field ≠ "" ∧ sel.selector ≠ "" then objInsert obj sel.field sel.selector
  else obj

/-- `selectorsObj`: the forEach loop over the selector pairs starting from
the empty object. -/
def buildSelectorsObj (pairs : List SelectorPair) : List (String × String) :=
  pairs.foldl selStep []

/-- The payload handed to onSubmit on validation success. -/
structure ScrapeRequest where
  url : String
  use_selenium : Bool
  selectors : List (String × String)
deriving DecidableEq, Repr

/-- ScrapingForm.handleSubmit: the three checks in order, then the
onSubmit payload. -/
def handleSubmit (form : FormData) : Except ValidationError ScrapeRequest :=
  if form.url = "" then .error .MissingUrl
  else if form.selectors.length = 0 then .error .NoSelectors
  else if (buildSelectorsObj form.selectors).length = 0 then .error .NoValidSelectors
  else .ok ⟨form.url, form.use_selenium, buildSelectorsObj form.selectors⟩

/-! ### Dashboard state and the polling scheduler registration -/

/-- Job status values used by the client. -/
inductive JobStatus where
  | pending
  | running
  | completed
  | failed
deriving DecidableEq, Repr

/-- A ScrapeJob as held in the dashboard's job collection. -/
structure ScrapeJob where
  id : Nat
  url : String
  status : JobStatus
  result_data : Option ResultData
  error_message : Option String
deriving DecidableEq, Repr

/-- One interval created by a call to pollJobStatus. `active` is whether the
interval has not been cleared. -/
structure PollLoop where
  jobId : Nat
  active : Bool
deriving DecidableEq, Repr

/-- The Dashboard component state: the job collection, the current
selection, and the polling intervals that have been created. -/
structure DashState where
  scrapeJobs : List ScrapeJob
  currentJob : Option ScrapeJob
  loops : List PollLoop
deriving DecidableEq, Repr

/-- Registration side of pollJobStatus: each call runs
`setInterval(..., 2000)` unconditionally, creating one new active interval.
There is no registry keyed by job id and no check for an existing loop. -/
def pollJobStatus (jobId : Nat) (s : DashState) : DashState :=
  { s with loops := s.loops ++ [⟨jobId, true⟩] }

/-- Number of uncleared intervals currently polling a given job id; also the
number of status fetches issued for that id per 2000 ms interval. -/
def activeLoopsFor (jobId : Nat) (s : DashState) : Nat :=
  (s.loops.filter (fun l => l.jobId == jobId && l.active)).length

/-- Remote failure of a request (network error or non-2xx response). -/
inductive RequestError where
  | requestFailed (detail : String)
deriving DecidableEq, Repr

/-- Dashboard.handleScrape after createScrapeJob resolves: on success the
returned job is prepended, selected, and pollJobStatus is called on its id;
on failure only a toast is shown and the state is untouched. -/
def handleScrape (remote : Except RequestError ScrapeJob) (s : DashState) :
    DashState :=
  match remote with
  | .ok job =>
    pollJobStatus job.id
      { s with scrapeJobs := job :: s.scrapeJobs, currentJob := some job }
  | .error _ => s

/-- The submission pipeline: handleSubmit validates; only on success is
onSubmit (handleScrape) invoked with the remote outcome. Returns the
resulting dashboard state and the validation error, if any. -/
def submitPipeline (form : FormData)
    (remote : ScrapeRequest → Except RequestError ScrapeJob)
    (s : DashState) : DashState × Option ValidationError :=
  match handleSubmit form with
  | .error e => (s, some e)
  | .ok req => (handleScrape (remote req) s, none)

/-! ### One polling loop's timeline (the interval callback and the 300000 ms
timeout of pollJobStatus) -/

/-- Phase of one polling loop: `polling` while the interval is live;
the loop leaves `polling` on a terminal status (`phCompleted`/`phFailed`),
on a fetch error (`cancelled`), or when the 300000 ms timeout clears the
interval (`timedOut`). -/
inductive Phase where
  | polling
  | phCompleted
  | phFailed
  | cancelled
  | timedOut
deriving DecidableEq, Repr

/-- State observed by one polling loop: its phase plus the dashboard data it
mutates (the job collection and the current selection). -/
structure LoopState where
  phase : Phase
  jobs : List ScrapeJob
  current : Option ScrapeJob
deriving DecidableEq, Repr

/-- Outcome of one getScrapeResult fetch. -/
inductive FetchOutcome where
  | success (job : ScrapeJob)
  | failure
deriving DecidableEq, Repr

/-- `setScrapeJobs(prev => prev.map(j => j.id === jobId ? job : j))`. -/
def updateJobs (jobId : Nat) (job : ScrapeJob) (jobs : List ScrapeJob) :
    List ScrapeJob :=
  jobs.map (fun j => if j.id == jobId then job else j)

/-- One interval tick. A tick only fires while the interval is uncleared
(phase `polling`). On fetch success the job entry is replaced; a terminal
status clears the interval (and a completed job becomes the selection); a
non-terminal status keeps polling. On fetch failure the interval is cleared
and no retry happens. -/
def tickStep (jobId : Nat) (st : LoopState) (o : FetchOutcome) : LoopState :=
  if st.phase ≠ Phase.polling then st
  else
    match o with
    | .failure => { st with phase := .cancelled }
    | .success job =>
      let jobs' := updateJobs jobId job st.jobs
      match job.status with
      | .completed => { phase := .phCompleted, jobs := jobs', current := some job }
      | .failed => { st with phase := .phFailed, jobs := jobs' }
      | _ => { st with jobs := jobs' }

/-- The 300000 ms timeout handler: `clearInterval(pollInterval)` and nothing
else. It stops a loop still polling; clearing an already-cleared interval is
a no-op. It never touches the job collection or the selection. -/
def timeoutStep (st : LoopState) : LoopState :=
  if st.phase = Phase.polling then { st with phase := .timedOut } else st

/-- The fixed tick interval, in ms. -/
def pollIntervalMs : Nat := 2000

/-- The hard polling ceiling, in ms. -/
def pollTimeoutMs : Nat := 300000

/-- State after the first `n` ticks, where `fetch k` is the outcome of the
k-th tick's status fetch. -/
def runTicks (jobId : Nat) (fetch : Nat → FetchOutcome) (st : LoopState) :
    Nat → LoopState
  | 0 => st
  | n + 1 => tickStep jobId (runTicks jobId fetch st n) (fetch n)

/-- Number of ticks fired by time `t`: ticks are due at 2000, 4000, …, and
at the 300000 ms boundary the timeout clears the interval, so at most
`300000/2000 - 1` ticks ever fire. -/
def numTicks (t : Nat) : Nat :=
  min (t / pollIntervalMs) (pollTimeoutMs / pollIntervalMs - 1)

/-- The loop's state at time `t` (ms) after registration: the ticks due by
`t` have fired, and from 300000 ms on the timeout handler has run. -/
def stateAt (jobId : Nat) (fetch : Nat → FetchOutcome) (st : LoopState)
    (t : Nat) : LoopState :=
  if pollTimeoutMs ≤ t then timeoutStep (runTicks jobId fetch st (numTicks t))
  else runTicks jobId fetch st (numTicks t)

/-! ### Export dispatch (ExportButtons) -/

/-- The four export formats. -/
inductive ExportFormat where
  | csv
  | json
  | pdf
  | excel
deriving DecidableEq, Repr

/-- State of one ExportButtons instance plus the log of transfer requests it
has triggered: `exporting` is the React state of the same name, and each
accepted click appends one `(jobId, format)` transfer. -/
structure ExportState where
  exporting : Option ExportFormat
  transfers : List (Nat × ExportFormat)
deriving DecidableEq, Repr

/-- A click on the button for `format`: the button is rendered with
`disabled={exporting === format}`, so the click is a no-op exactly when that
format is already in flight; otherwise handleExport sets `exporting` and
issues one export request. -/
def clickExport (jobId : Nat) (format : ExportFormat) (s : ExportState) :
    ExportState :=
  if s.exporting = some format then s
  else { exporting := some format, transfers := s.transfers ++ [(jobId, format)] }

/-- handleExport's `finally`: `setExporting(null)` once the request settles,
whether it succeeded or failed. -/
def resolveExport (s : ExportState) : ExportState :=
  { s with exporting := none }

/-! ### Helper lemmas -/

/-- The source's cell computation agrees with the spec's description of it:
`values[i] || ''` on strings equals "the element at index `i` if present,
else the empty string", because the only falsy string is the empty one. -/
theorem rowValue_eq_specRowValue (v : Value) (i : Nat) :
    rowValue v i = specRowValue v i := by
  cases v with
  | str s => rfl
  | seq xs =>
    show orEmpty xs[i]? = specRowValue (Value.seq xs) i
    cases hx : xs[i]? with
    | none => simp [orEmpty, specRowValue, hx]
    | some s =>
      simp only [orEmpty, specRowValue, hx]
      by_cases hs : s = "" <;> simp [hs]

/-- Folding `max` over a list of zeros gives zero. -/
theorem foldr_max_eq_zero {l : List Nat} (h : ∀ x ∈ l, x = 0) :
    l.foldr Nat.max 0 = 0 := by
  induction l with
  | nil => rfl
  | cons a t ih =>
    simp only [List.foldr_cons]
    rw [h a (by simp), ih (fun x hx => h x (by simp [hx]))]
    rfl

/-- Assigning into a JS object never empties it. -/
theorem objInsert_ne_nil (obj : List (String × String)) (k v : String) :
    objInsert obj k v ≠ [] := by
  cases obj with
  | nil => simp [objInsert]
  | cons a t =>
    unfold objInsert
    split <;> simp

/-- A pair with an empty field or selector is skipped by the loop. -/
theorem selStep_invalid (obj : List (String × String)) (sel : SelectorPair)
    (h : sel.field = "" ∨ sel.selector = "") : selStep obj sel = obj := by
  unfold selStep
  rw [if_neg]
  intro hc
  rcases h with h | h
  · exact hc.1 h
  · exact hc.2 h

/-- The selectorsObj loop leaves the object unchanged when every pair is
invalid. -/
theorem foldl_selStep_invariant (pairs : List SelectorPair)
    (obj : List (String × String))
    (h : ∀ p ∈ pairs, p.field = "" ∨ p.selector = "") :
    List.foldl selStep obj pairs = obj := by
  induction pairs generalizing obj with
  | nil => rfl
  | cons q t ih =>
    rw [List.foldl_cons, selStep_invalid obj q (h q (by simp))]
    exact ih obj (fun p hp => h p (by simp [hp]))

/-- Once non-empty, the object built by the loop stays non-empty. -/
theorem foldl_selStep_ne_nil (pairs : List SelectorPair)
    (obj : List (String × String)) (h : obj ≠ []) :
    List.foldl selStep obj pairs ≠ [] := by
  induction pairs generalizing obj with
  | nil => exact h
  | cons q t ih =>
    rw [List.foldl_cons]
    apply ih
    unfold selStep
    split
    · exact objInsert_ne_nil obj q.field q.selector
    · exact h

/-- A valid pair anywhere in the list forces a non-empty selectorsObj. -/
theorem foldl_selStep_ne_nil_of_mem (pairs : List SelectorPair)
    (obj : List (String × String)) (p : SelectorPair) (hp : p ∈ pairs)
    (hf : p.field ≠ "") (hs : p.selector ≠ "") :
    List.foldl selStep obj pairs ≠ [] := by
  induction pairs generalizing obj with
  | nil => cases hp
  | cons q t ih =>
    rw [List.foldl_cons]
    rcases List.mem_cons.mp hp with hq | ht
    · subst hq
      apply foldl_selStep_ne_nil
      unfold selStep
      rw [if_pos ⟨hf, hs⟩]
      exact objInsert_ne_nil obj p.field p.selector
    · exact ih (selStep obj q) ht

/-- Each call to pollJobStatus adds exactly one active loop for its id. -/
theorem activeLoopsFor_register (j : Nat) (s : DashState) :
    activeLoopsFor j (pollJobStatus j s) = activeLoopsFor j s + 1 := by
  unfold activeLoopsFor pollJobStatus
  simp [List.filter_append, List.filter]

/-- After the timeout handler has run, the loop is no longer polling. -/
theorem timeoutStep_not_polling (st : LoopState) :
    (timeoutStep st).phase ≠ Phase.polling := by
  unfold timeoutStep
  split
  · simp
  · next h => exact h

/-! ### Claims -/

/-- Claim C1: for every input mapping and row index `i` in `[0, width)`, the
row at `i` binds each non-metadata field, in input order, to the element at
index `i` of its sequence when present (else the empty string), and to the
scalar itself exactly when `i = 0` (else the empty string). -/
theorem claim_C1_rows_follow_spec (data : ResultData) (i : Nat)
    (hi : i < maxLength (stripMetadata data)) :
    (tableData data)[i]? =
      some ((stripMetadata data).map (fun kv => (kv.1, specRowValue kv.2 i))) := by
  unfold tableData
  rw [List.getElem?_map, List.getElem?_range hi]
  show some (rowAt (stripMetadata data) i) = _
  unfold rowAt
  congr 1
  exact List.map_congr_left (fun kv _ => by rw [rowValue_eq_specRowValue])

/-- Witness for C1 at a one-field mapping and row index 0. -/
theorem claim_C1_rows_follow_spec_witness :
    (tableData [("title", Value.seq ["A"])])[0]? =
      some ((stripMetadata [("title", Value.seq ["A"])]).map
        (fun kv => (kv.1, specRowValue kv.2 0))) :=
  claim_C1_rows_follow_spec [("title", Value.seq ["A"])] 0 (by decide)

/-- Claim C8: normalizing a two-element sequence field together with a
scalar field yields exactly two rows, the scalar appearing only in row 0. -/
theorem claim_C8_concrete_normalization :
    tableData [("title", Value.seq ["A", "B"]), ("note", Value.str "x")] =
      [[("title", "A"), ("note", "x")], [("title", "B"), ("note", "")]] := by
  decide

/-- Claim C10: every row produced by the normalizer has exactly the
non-metadata keys of the input mapping, in input order. -/
theorem claim_C10_uniform_field_set (data : ResultData)
    (row : List (String × String)) (hrow : row ∈ tableData data) :
    row.map Prod.fst = (stripMetadata data).map Prod.fst := by
  unfold tableData at hrow
  rw [List.mem_map] at hrow
  obtain ⟨i, _, rfl⟩ := hrow
  unfold rowAt
  rw [List.map_map]
  rfl

/-- Witness for C10 at a one-field mapping. -/
theorem claim_C10_uniform_field_set_witness :
    ([("title", "A")] : List (String × String)).map Prod.fst =
      (stripMetadata [("title", Value.seq ["A"])]).map Prod.fst :=
  claim_C10_uniform_field_set [("title", Value.seq ["A"])] [("title", "A")]
    (by decide)

/-- Claim C7: the empty mapping renders as the "no data available" outcome
with an empty row sequence, while a non-empty mapping whose non-metadata
fields are all empty sequences yields zero rows rendered as the distinct
"no data found with the specified selectors" outcome. -/
theorem claim_C7_two_empty_states (d : ResultData) (hne : d ≠ [])
    (hall : ∀ kv ∈ stripMetadata d, kv.2 = Value.seq []) :
    tableData ([] : ResultData) = [] ∧
    renderResults (some ([] : ResultData)) = RenderOutcome.noDataAvailable ∧
    tableData d = [] ∧
    renderResults (some d) = RenderOutcome.noDataFound ∧
    RenderOutcome.noDataAvailable ≠ RenderOutcome.noDataFound := by
  have hmax : maxLength (stripMetadata d) = 0 := by
    unfold maxLength
    apply foldr_max_eq_zero
    intro x hx
    rw [List.mem_map] at hx
    obtain ⟨kv, hkv, rfl⟩ := hx
    rw [hall kv hkv]
    rfl
  have htd : tableData d = [] := by
    unfold tableData
    rw [hmax]
    rfl
  have hlen : d.length ≠ 0 := fun h => hne (List.length_eq_zero.mp h)
  refine ⟨rfl, rfl, htd, ?_, by decide⟩
  simp [renderResults, htd, hlen]

/-- Witness for C7 at the mapping with one field bound to the empty
sequence. -/
theorem claim_C7_two_empty_states_witness :
    tableData ([] : ResultData) = [] ∧
    renderResults (some ([] : ResultData)) = RenderOutcome.noDataAvailable ∧
    tableData [("a", Value.seq [])] = [] ∧
    renderResults (some [("a", Value.seq [])]) = RenderOutcome.noDataFound ∧
    RenderOutcome.noDataAvailable ≠ RenderOutcome.noDataFound :=
  claim_C7_two_empty_states [("a", Value.seq [])] (by decide) (by decide)

/-- Claim C2 fails on the code: pollJobStatus keeps no registry keyed by job
id, so registering an id that is already polling is not a no-op — starting
from the empty dashboard state, two registrations of job id 1 leave two
active ticking loops, not the single one the claim requires. -/
theorem claim_C2_not_idempotent_counterexample :
    activeLoopsFor 1 (pollJobStatus 1 (pollJobStatus 1 ⟨[], none, []⟩)) = 2 ∧
    activeLoopsFor 1 (pollJobStatus 1 (pollJobStatus 1 ⟨[], none, []⟩)) ≠ 1 := by
  decide

/-- Claim C2 as amended: registering a job id with the polling scheduler
always creates one additional active polling loop for that id, even when a
loop for that id is already active — registration is not idempotent, and an
id registered twice is fetched twice per interval. -/
theorem claim_C2_registration_adds_loop (jobId : Nat) (s : DashState) :
    activeLoopsFor jobId (pollJobStatus jobId s) = activeLoopsFor jobId s + 1 :=
  activeLoopsFor_register jobId s

/-- Claim C3: while an export for a format is in flight, the button for that
format is disabled, so a second request for the same `(jobId, format)` pair
before the first resolves is a no-op: exactly one transfer is triggered and
nothing is queued. -/
theorem claim_C3_export_single_flight (jobId : Nat) (format : ExportFormat)
    (s : ExportState) (h : s.exporting ≠ some format) :
    (clickExport jobId format s).transfers = s.transfers ++ [(jobId, format)] ∧
    clickExport jobId format (clickExport jobId format s) =
      clickExport jobId format s := by
  have h1 : clickExport jobId format s =
      ⟨some format, s.transfers ++ [(jobId, format)]⟩ := by
    unfold clickExport
    rw [if_neg h]
  refine ⟨by rw [h1], ?_⟩
  rw [h1]
  unfold clickExport
  simp

/-- Witness for C3: a double CSV click from the idle export state. -/
theorem claim_C3_export_single_flight_witness :
    (clickExport 1 ExportFormat.csv ⟨none, []⟩).transfers =
      ([] : List (Nat × ExportFormat)) ++ [(1, ExportFormat.csv)] ∧
    clickExport 1 ExportFormat.csv (clickExport 1 ExportFormat.csv ⟨none, []⟩) =
      clickExport 1 ExportFormat.csv ⟨none, []⟩ :=
  claim_C3_export_single_flight 1 ExportFormat.csv ⟨none, []⟩ (by decide)

/-- Claim C4: from 300000 ms after registration the loop is out of the
polling phase and its state never changes again — whatever every status
fetch returned (pending included) and whether fetches succeeded or not, at
most 149 ticks ever fire and the 300000 ms timeout clears the interval. -/
theorem claim_C4_polling_bounded (jobId : Nat) (fetch : Nat → FetchOutcome)
    (st : LoopState) (t : Nat) (ht : pollTimeoutMs ≤ t) :
    (stateAt jobId fetch st t).phase ≠ Phase.polling ∧
    stateAt jobId fetch st t = stateAt jobId fetch st pollTimeoutMs := by
  have hnum : ∀ u, pollTimeoutMs ≤ u →
      numTicks u = pollTimeoutMs / pollIntervalMs - 1 := by
    intro u hu
    unfold numTicks
    exact Nat.min_eq_right (le_trans (Nat.sub_le _ _) (Nat.div_le_div_right hu))
  unfold stateAt
  rw [if_pos ht, if_pos (le_refl pollTimeoutMs), hnum t ht,
    hnum pollTimeoutMs (le_refl pollTimeoutMs)]
  exact ⟨timeoutStep_not_polling _, rfl⟩

/-- Witness for C4: a loop whose fetch always reports a pending job, at
exactly 300000 ms. -/
theorem claim_C4_polling_bounded_witness :
    (stateAt 1 (fun _ => FetchOutcome.success ⟨1, "u", JobStatus.pending, none, none⟩)
        ⟨Phase.polling, [], none⟩ 300000).phase ≠ Phase.polling ∧
    stateAt 1 (fun _ => FetchOutcome.success ⟨1, "u", JobStatus.pending, none, none⟩)
        ⟨Phase.polling, [], none⟩ 300000 =
      stateAt 1 (fun _ => FetchOutcome.success ⟨1, "u", JobStatus.pending, none, none⟩)
        ⟨Phase.polling, [], none⟩ pollTimeoutMs :=
  claim_C4_polling_bounded 1 _ ⟨Phase.polling, [], none⟩ 300000 (by decide)

/-- Claim C5: when the url is non-empty and the pair list non-empty but
every pair has an empty field or an empty selector, submission fails with
NoValidSelectors and the dashboard state — the job collection included —
is unchanged. -/
theorem claim_C5_no_valid_selectors (form : FormData)
    (remote : ScrapeRequest → Except RequestError ScrapeJob) (s : DashState)
    (hurl : form.url ≠ "") (hne : form.selectors ≠ [])
    (hall : ∀ p ∈ form.selectors, p.field = "" ∨ p.selector = "") :
    submitPipeline form remote s = (s, some ValidationError.NoValidSelectors) := by
  have hobj : buildSelectorsObj form.selectors = [] :=
    foldl_selStep_invariant form.selectors [] hall
  have h1 : handleSubmit form = .error .NoValidSelectors := by
    unfold handleSubmit
    rw [if_neg hurl, if_neg (fun h => hne (List.length_eq_zero.mp h)),
      if_pos (by rw [hobj]; rfl)]
  unfold submitPipeline
  rw [h1]

/-- Witness for C5: a form with two pairs, one missing its field and one
missing its selector. -/
theorem claim_C5_no_valid_selectors_witness :
    submitPipeline
        ⟨"https://example.com", false, [⟨"", "h1"⟩, ⟨"price", ""⟩]⟩
        (fun _ => Except.error (RequestError.requestFailed "boom"))
        ⟨[], none, []⟩ =
      (⟨[], none, []⟩, some ValidationError.NoValidSelectors) :=
  claim_C5_no_valid_selectors _ _ _ (by decide) (by decide) (by decide)

/-- Claim C6: with a non-empty url and at least one fully non-empty pair,
validation succeeds and the request is issued; on remote success the
returned job is inserted at position 0 of the collection, becomes the
current selection, and one polling loop is registered for its id; on remote
failure the dashboard state is untouched. -/
theorem claim_C6_submit_success (form : FormData) (job : ScrapeJob)
    (e : RequestError) (s : DashState) (hurl : form.url ≠ "")
    (hvalid : ∃ p ∈ form.selectors, p.field ≠ "" ∧ p.selector ≠ "") :
    handleSubmit form =
      Except.ok ⟨form.url, form.use_selenium, buildSelectorsObj form.selectors⟩ ∧
    (handleScrape (Except.ok job) s).scrapeJobs = job :: s.scrapeJobs ∧
    (handleScrape (Except.ok job) s).currentJob = some job ∧
    activeLoopsFor job.id (handleScrape (Except.ok job) s) =
      activeLoopsFor job.id s + 1 ∧
    handleScrape (Except.error e) s = s := by
  obtain ⟨p, hp, hf, hs⟩ := hvalid
  have hne : form.selectors ≠ [] := by
    intro h
    rw [h] at hp
    cases hp
  have hobj : buildSelectorsObj form.selectors ≠ [] :=
    foldl_selStep_ne_nil_of_mem form.selectors [] p hp hf hs
  refine ⟨?_, rfl, rfl, ?_, rfl⟩
  · unfold handleSubmit
    rw [if_neg hurl, if_neg (fun h => hne (List.length_eq_zero.mp h)),
      if_neg (fun h => hobj (List.length_eq_zero.mp h))]
  · show activeLoopsFor job.id (pollJobStatus job.id _) = _
    rw [activeLoopsFor_register]
    rfl

/-- Witness for C6: a concrete valid form, returned job, and failing
request, from the empty dashboard state. -/
theorem claim_C6_submit_success_witness :
    handleSubmit ⟨"https://example.com", false, [⟨"title", "h1"⟩]⟩ =
      Except.ok ⟨"https://example.com", false,
        buildSelectorsObj [⟨"title", "h1"⟩]⟩ ∧
    (handleScrape (Except.ok ⟨7, "https://example.com", JobStatus.pending, none, none⟩)
        ⟨[], none, []⟩).scrapeJobs =
      (⟨7, "https://example.com", JobStatus.pending, none, none⟩ : ScrapeJob) ::
        ([] : List ScrapeJob) ∧
    (handleScrape (Except.ok ⟨7, "https://example.com", JobStatus.pending, none, none⟩)
        ⟨[], none, []⟩).currentJob =
      some ⟨7, "https://example.com", JobStatus.pending, none, none⟩ ∧
    activeLoopsFor 7 (handleScrape
        (Except.ok ⟨7, "https://example.com", JobStatus.pending, none, none⟩)
        ⟨[], none, []⟩) =
      activeLoopsFor 7 ⟨[], none, []⟩ + 1 ∧
    handleScrape (Except.error (RequestError.requestFailed "down")) ⟨[], none, []⟩ =
      ⟨[], none, []⟩ :=
  claim_C6_submit_success ⟨"https://example.com", false, [⟨"title", "h1"⟩]⟩
    ⟨7, "https://example.com", JobStatus.pending, none, none⟩
    (RequestError.requestFailed "down") ⟨[], none, []⟩ (by decide) (by decide)

/-- Claim C9: the 300000 ms timeout transition mutates no job: the
collection and the current selection are exactly what they were, and the
phase merely moves from polling to timedOut (any other phase is kept), so
the job's last known status is left as-is and in particular is not forced
to failed. -/
theorem claim_C9_timeout_leaves_jobs (st : LoopState) :
    (timeoutStep st).jobs = st.jobs ∧
    (timeoutStep st).current = st.current ∧
    (timeoutStep st).phase =
      (if st.phase = Phase.polling then Phase.timedOut else st.phase) := by
  unfold timeoutStep
  by_cases h : st.phase = Phase.polling <;> simp [h]

end SP
